import Mathlib

/-!
# PipeWeave: verification of the rule-based decision core

This file gives a shallow embedding, in Lean 4, of the deterministic
decision-rule functions of the PipeWeave repository (schema type detection,
imputation/scaling/encoding strategy selection, EDA class-imbalance insight
generation, pipeline validation, confidence estimation) together with a
declarative embedding of the initial Alembic schema migration, and proves
the specification claims about them.

Python `float` values are modelled as exact rationals (`ℚ`); machine
floating-point rounding is idealised away.  Python dictionaries are modelled
as association lists, Python sets as deduplicated lists, and Python string
formatting is modelled by message values that carry the exact payloads that
would be formatted.
-/

namespace PipeWeave

/-! ## Association-list lookup with default (models `dict.get(key, default)`) -/

/-- `dict.get(key, default)` on an association list: the value of the first
binding of `key`, or `default` when `key` is absent. -/
def dictGetD (d : List (String × ℚ)) (key : String) (default : ℚ) : ℚ :=
  match d.find? (fun kv => kv.1 = key) with
  | some kv => kv.2
  | none => default

/-! ## `recommend_imputation_strategy`
(src/backend/agents/pipeline_builder/tools/imputation_recommender.py)

The `data_type` argument is annotated `Literal["numeric", "categorical"]`
in the source; it is embedded as a two-constructor inductive type. -/

/-- The declared domain of the `data_type` argument. -/
inductive DataType where
  | numeric
  | categorical
deriving DecidableEq, Repr

/-- Embedding of `recommend_imputation_strategy(column_name, missing_pct,
data_type, has_outliers)`.  `column_name` is only used for logging in the
source and does not influence the result; it is kept as an argument. -/
def recommend_imputation_strategy (_column_name : String) (missing_pct : ℚ)
    (data_type : DataType) (has_outliers : Bool) : String :=
  if data_type = DataType.categorical then
    "mode"
  else if missing_pct < 5 then
    (if has_outliers then "median" else "mean")
  else if 5 ≤ missing_pct ∧ missing_pct ≤ 20 then
    (if has_outliers then "median" else "mean")
  else
    (if missing_pct < 40 then "knn" else "iterative")

/-! ## `recommend_scaling_strategy`
(src/backend/agents/pipeline_builder/tools/scaling_recommender.py) -/

/-- Embedding of `recommend_scaling_strategy(column_stats, has_outliers)`.
`column_stats` is the statistics dictionary; the source reads
`column_stats.get("skewness", 0.0)`. -/
def recommend_scaling_strategy (column_stats : List (String × ℚ))
    (has_outliers : Bool) : String :=
  if has_outliers then
    "robust"
  else
    let skewness := |dictGetD column_stats "skewness" 0|
    if skewness < (0.5 : ℚ) then
      "standard"
    else if skewness > (2.0 : ℚ) then
      "log_transform"
    else
      "standard"

/-! ## `recommend_encoding_strategy`
(src/backend/agents/pipeline_builder/tools/encoding_recommender.py)

`unique_values` is a Python `int` (embedded as `ℤ`), `target_correlation`
a Python `float` (embedded as `ℚ`). -/

/-- Embedding of `recommend_encoding_strategy(unique_values, target_correlation)`. -/
def recommend_encoding_strategy (unique_values : ℤ)
    (target_correlation : ℚ) : String :=
  if unique_values < 10 then
    "onehot"
  else if 10 ≤ unique_values ∧ unique_values ≤ 50 then
    (if |target_correlation| > (0.3 : ℚ) then "target" else "onehot")
  else
    (if unique_values > 100 then "hash" else "target")

/-! ## Pipeline validation endpoint
(src/backend/api/v1/pipelines/validation.py, `validate_pipeline`)

The Pydantic request/response schemas
(src/backend/api/schemas/pipelines.py, src/backend/api/schemas/base.py)
are embedded as structures.  Python `Any` values occurring in
`Dict[str, Any]` parameters are embedded as a small value type. -/

/-- A Python value as it can appear in a JSON-ish `Dict[str, Any]`. -/
inductive PyValue where
  | vStr (s : String)
  | vInt (n : ℤ)
  | vRat (q : ℚ)
  | vBool (b : Bool)
  | vNone
deriving DecidableEq, Repr

/-- `PipelineStepType(str, Enum)`: the four pipeline step categories. -/
inductive PipelineStepType where
  | preprocessing
  | feature_engineering
  | model_training
  | evaluation
deriving DecidableEq, Repr

/-- `PipelineStepConfig`: configuration for a single pipeline step. -/
structure PipelineStepConfig where
  type : PipelineStepType
  operation : String
  parameters : List (String × PyValue)
  depends_on : List String
deriving DecidableEq, Repr

/-- `PipelineConfigRequest`: pipeline creation/update/validation request. -/
structure PipelineConfigRequest where
  name : String
  dataset_id : String
  steps : List PipelineStepConfig
  description : Option String
deriving DecidableEq, Repr

/-- `PipelineValidationError`: a single validation error in a pipeline config. -/
structure PipelineValidationError where
  step_index : ℤ
  field : String
  message : String
deriving DecidableEq, Repr

/-- `PipelineValidationResponse`: pipeline configuration validation result. -/
structure PipelineValidationResponse where
  valid : Bool
  errors : List PipelineValidationError
  warnings : List String
deriving DecidableEq, Repr

/-- `VersionedResponse[T]`: generic versioned response wrapper
(`version` defaults to `"v1"`). -/
structure VersionedResponse (α : Type) where
  version : String
  data : α
deriving DecidableEq, Repr

/-- Embedding of the `POST /validate` handler `validate_pipeline(request,
settings)`.  The source logs the request, leaves all four validation
checks as Phase-5 TODOs, and returns a constant mock response
`PipelineValidationResponse(valid=True, errors=[], warnings=[])` wrapped
in a `VersionedResponse` (whose `version` takes its default `"v1"`).
Logging and the unused `settings` argument are omitted. -/
def validate_pipeline (_request : PipelineConfigRequest) :
    VersionedResponse PipelineValidationResponse :=
  { version := "v1"
    data := { valid := true, errors := [], warnings := [] } }

/-! ## `validate_preprocessing_pipeline`
(src/backend/agents/pipeline_builder/tools/pipeline_validator.py)

Python sets are modelled as duplicate-free lists built by `setAdd`;
`f"..."` error strings are modelled as message values carrying their
payloads. -/

/-- Adding one element to a Python set (modelled as a duplicate-free list). -/
def setAdd (s : List String) (x : String) : List String :=
  if x ∈ s then s else s ++ [x]

/-- `set.update(xs)`: adding all elements of `xs` to a set. -/
def setUnion (s : List String) (xs : List String) : List String :=
  xs.foldl setAdd s

/-- `set(xs)`: the set of elements of a list. -/
def setOfList (xs : List String) : List String :=
  setUnion [] xs

/-- `set(a) - set(b)` where `a` is already deduplicated. -/
def setDiff (a b : List String) : List String :=
  a.filter (fun x => decide (x ∉ b))

/-- One entry of the `"steps"` list of the pipeline configuration dict;
only its `"target_columns"` key is read by the validator. -/
structure PlanStep where
  target_columns : List String
deriving DecidableEq, Repr

/-- The pipeline configuration dict passed to the validator; only its
`"steps"` key is read. -/
structure PipelinePlan where
  steps : List PlanStep
deriving DecidableEq, Repr

/-- The sample `pandas.DataFrame`: its column names and row count (the
only observations the validator makes of it). -/
structure DataFrame where
  columns : List String
  numRows : ℕ
deriving DecidableEq, Repr

/-- A validation error message together with its formatted payload:
`f"Missing columns in dataset: {missing}"` or
`f"Duplicate column assignments: {duplicates}"`. -/
inductive ValidationErrorMsg where
  | missingColumns (missing : List String)
  | duplicateAssignments (duplicates : List String)
deriving DecidableEq, Repr

/-- The result dict of `validate_preprocessing_pipeline`. -/
structure ValidationOutcome where
  success : Bool
  output_shape : Option (ℕ × ℕ)
  errors : List ValidationErrorMsg
deriving DecidableEq, Repr

/-- The body of the first loop of `validate_preprocessing_pipeline`: one
step extends the accumulated column set with the step's `target_columns`
and, when some of those columns are absent from `X_sample.columns`,
appends a missing-columns error and clears the success flag.  The
accumulator is `(all_columns, errors, success)`. -/
def validateStepFold (X_sample : DataFrame)
    (acc : List String × List ValidationErrorMsg × Bool) (step : PlanStep) :
    List String × List ValidationErrorMsg × Bool :=
  let all_columns := setUnion acc.1 step.target_columns
  let missing_cols := setDiff (setOfList step.target_columns) X_sample.columns
  if missing_cols.isEmpty then
    (all_columns, acc.2.1, acc.2.2)
  else
    (all_columns, acc.2.1 ++ [ValidationErrorMsg.missingColumns missing_cols], false)

/-- Embedding of `validate_preprocessing_pipeline(pipeline_config,
X_sample)`: extracts `target_columns` from all steps into the set
`all_columns`, flags columns missing from `X_sample.columns` per step,
then counts column occurrences over `all_columns` (one count per element
of the set) and flags counts above one, and finally reports the output
shape `(len(X_sample), len(all_columns))` on success. -/
def validate_preprocessing_pipeline (pipeline_config : PipelinePlan)
    (X_sample : DataFrame) : ValidationOutcome :=
  let init : List String × List ValidationErrorMsg × Bool := ([], [], true)
  let acc := pipeline_config.steps.foldl (validateStepFold X_sample) init
  let all_columns := acc.1
  let column_counts : String → ℕ := fun c => all_columns.count c
  let duplicates := all_columns.filter (fun c => decide (1 < column_counts c))
  let errors :=
    if duplicates.isEmpty then acc.2.1
    else acc.2.1 ++ [ValidationErrorMsg.duplicateAssignments duplicates]
  let success := if duplicates.isEmpty then acc.2.2 else false
  let output_shape :=
    if success then some (X_sample.numRows, all_columns.length) else none
  { success := success, output_shape := output_shape, errors := errors }

/-- Recognises a missing-columns error (used to state that all produced
errors are of that form). -/
def isMissingColumnsError : ValidationErrorMsg → Bool
  | ValidationErrorMsg.missingColumns _ => true
  | ValidationErrorMsg.duplicateAssignments _ => false

/-! ## `analyze_class_imbalance`
(src/backend/agents/eda_insights/tools/imbalance_analyzer.py)

`value_counts : Dict[str, int]` is embedded as an association list.
`sorted(value_counts.items(), key=lambda x: x[1], reverse=True)` is a
stable descending sort by count; insertion sort with the non-strict
descending relation is stable, like Python sort.  The ratio
`majority_count / minority_count if minority_count > 0 else float("inf")`
lives in `WithTop ℚ` (`⊤` models the infinite float).  The f-string
message and fixed recommendation texts are embedded as values carrying
their payloads.  When `len(value_counts) >= 2` and all counts are zero,
the source raises `ZeroDivisionError` computing `majority_pct`; the
embedding returns `none` there. -/

/-- The ordering used for `sorted(..., key=lambda x: x[1], reverse=True)`:
`a` may come before `b` exactly when the count of `b` is at most the
count of `a`. -/
def countGE (a b : String × ℕ) : Prop := b.2 ≤ a.2

instance : DecidableRel countGE :=
  fun a b => inferInstanceAs (Decidable (b.2 ≤ a.2))

instance : IsTotal (String × ℕ) countGE := ⟨fun a b => le_total b.2 a.2⟩

instance : IsTrans (String × ℕ) countGE :=
  ⟨fun _ _ _ h1 h2 => le_trans h2 h1⟩

/-- The stable descending-by-count sort of the `(value, count)` pairs. -/
def sortedCounts (value_counts : List (String × ℕ)) : List (String × ℕ) :=
  value_counts.insertionSort countGE

/-- The fixed recommendation texts of `analyze_class_imbalance`:
`notApplicable` is the `N/A` text, `severe` the SMOTE-plus-ensemble text
for ratio above 10, `moderate` the SMOTE-or-undersampling text for ratio
at least 3, `mild` the balanced-class-weight text, and `balancedNoAction`
the no-action-needed text of the balanced early return. -/
inductive ImbalanceRecommendation where
  | notApplicable
  | severe
  | moderate
  | mild
  | balancedNoAction
deriving DecidableEq, Repr

/-- The f-string messages of `analyze_class_imbalance`, carrying their
numeric payloads unformatted. -/
inductive ImbalanceMessage where
  | notApplicable (column : String) (numClasses : ℕ)
  | detected (column majorityClass minorityClass : String)
      (majorityPct minorityPct : ℚ) (ratio : WithTop ℚ)
  | balanced (column : String) (ratio : WithTop ℚ)
deriving DecidableEq, Repr

/-- The insight dict returned by `analyze_class_imbalance`. -/
structure ImbalanceInsight where
  type : String
  severity : String
  column : String
  message : ImbalanceMessage
  recommendation : ImbalanceRecommendation
deriving DecidableEq, Repr

/-- Embedding of `analyze_class_imbalance(column_name, value_counts)`.
The source computes the severity and the recommendation by two separate
if/elif ladders over the same ratio thresholds (`> 10`, `>= 3`, with
`>= 1.5` only in the severity ladder and the balanced case returning
early); the embedding fuses the two ladders branch by branch, which is
equivalent because they test identical conditions in identical order. -/
def analyze_class_imbalance (column_name : String)
    (value_counts : List (String × ℕ)) : Option ImbalanceInsight :=
  if value_counts.length < 2 then
    some { type := "class_imbalance", severity := "low", column := column_name,
           message := ImbalanceMessage.notApplicable column_name value_counts.length,
           recommendation := ImbalanceRecommendation.notApplicable }
  else
    let total := (value_counts.map Prod.snd).sum
    if total = 0 then
      none
    else
      let sorted_counts := sortedCounts value_counts
      let majority := sorted_counts.headD ("", 0)
      let minority := (sorted_counts.getLast?).getD ("", 0)
      let majority_pct : ℚ := (majority.2 : ℚ) / (total : ℚ) * 100
      let minority_pct : ℚ := (minority.2 : ℚ) / (total : ℚ) * 100
      let ratio : WithTop ℚ :=
        if 0 < minority.2 then (((majority.2 : ℚ) / (minority.2 : ℚ) : ℚ) : WithTop ℚ)
        else ⊤
      if ((10 : ℚ) : WithTop ℚ) < ratio then
        some { type := "class_imbalance", severity := "high", column := column_name,
               message := ImbalanceMessage.detected column_name majority.1 minority.1
                 majority_pct minority_pct ratio,
               recommendation := ImbalanceRecommendation.severe }
      else if ((3 : ℚ) : WithTop ℚ) ≤ ratio then
        some { type := "class_imbalance", severity := "medium", column := column_name,
               message := ImbalanceMessage.detected column_name majority.1 minority.1
                 majority_pct minority_pct ratio,
               recommendation := ImbalanceRecommendation.moderate }
      else if ((1.5 : ℚ) : WithTop ℚ) ≤ ratio then
        some { type := "class_imbalance", severity := "low", column := column_name,
               message := ImbalanceMessage.detected column_name majority.1 minority.1
                 majority_pct minority_pct ratio,
               recommendation := ImbalanceRecommendation.mild }
      else
        some { type := "class_imbalance", severity := "low", column := column_name,
               message := ImbalanceMessage.balanced column_name ratio,
               recommendation := ImbalanceRecommendation.balancedNoAction }

/-! ## A model of Python string and float primitives

Shared by the embeddings of the schema-deduction tools.  `str.strip()`
and `float(...)` are modelled over ASCII: Unicode whitespace and digit
variants accepted by CPython are idealised away (none of the claims
depends on them). -/

/-- The ASCII whitespace stripped by `str.strip()`. -/
def pyWhitespace (c : Char) : Bool :=
  c = ' ' || c = '\t' || c = '\n' || c = '\r' || c = '\x0b' || c = '\x0c'

/-- `str.strip()`: removes leading and trailing whitespace. -/
def pyStrip (s : String) : String :=
  ⟨((s.toList.dropWhile pyWhitespace).reverse.dropWhile pyWhitespace).reverse⟩

/-- `str.lower()` (ASCII model). -/
def pyLower (s : String) : String := ⟨s.toList.map Char.toLower⟩

/-- Tail of a digit group: digits optionally separated by single
underscores (PEP 515), no trailing underscore. -/
def digitsTail : List Char → Bool
  | [] => true
  | '_' :: c :: rest => c.isDigit && digitsTail rest
  | ['_'] => false
  | c :: rest => c.isDigit && digitsTail rest

/-- A nonempty digit group with optional single underscores between
digits, as accepted inside a Python float literal. -/
def digitsOk : List Char → Bool
  | [] => false
  | c :: rest => c.isDigit && digitsTail rest

/-- The natural number denoted by a digit group (underscores skipped). -/
def digitsVal (cs : List Char) : ℕ :=
  cs.foldl (fun acc c => if c = '_' then acc else acc * 10 + (c.toNat - '0'.toNat)) 0

/-- Leading `+`/`-` sign: returns (is-negative, rest). -/
def parseSign : List Char → Bool × List Char
  | '+' :: rest => (false, rest)
  | '-' :: rest => (true, rest)
  | cs => (false, cs)

/-- Applies a parsed sign. -/
def applySign (neg : Bool) (q : ℚ) : ℚ := if neg then -q else q

/-- The number of actual digits of a fractional digit group. -/
def fracLen (cs : List Char) : ℕ := (cs.filter (fun c => decide (c ≠ '_'))).length

/-- The mantissa of a Python float literal: `digits`, `digits.`,
`.digits` or `digits.digits`, scaled by `10 ^ e`. -/
def parseMantissa (neg : Bool) (mant : List Char) (e : ℤ) : Option ℚ :=
  match mant.splitOnP (fun c => c = '.') with
  | [ip] =>
    if digitsOk ip then some (applySign neg ((digitsVal ip : ℚ) * (10 : ℚ) ^ e))
    else none
  | [ip, fp] =>
    if (ip.isEmpty || digitsOk ip) && (fp.isEmpty || digitsOk fp)
        && !(ip.isEmpty && fp.isEmpty) then
      some (applySign neg
        (((digitsVal ip : ℚ) + (digitsVal fp : ℚ) / (10 : ℚ) ^ (fracLen fp))
          * (10 : ℚ) ^ e))
    else none
  | _ => none

/-- The exact value of a finite Python float literal accepted by
`float(s)` (optional surrounding whitespace, optional sign, decimal
mantissa, optional `e`/`E` exponent), or `none` when `float(s)` raises
`ValueError` or the literal is one of the non-finite forms
(`inf`/`infinity`/`nan`, recognised separately by `isInfNaNStr`).
Values are exact rationals; IEEE rounding is idealised away. -/
def pyFloatVal (s : String) : Option ℚ :=
  let cs := (pyStrip s).toList
  let (neg, cs) := parseSign cs
  match cs.splitOnP (fun c => c = 'e' || c = 'E') with
  | [mant] => parseMantissa neg mant 0
  | [mant, ex] =>
    let (eneg, ecs) := parseSign ex
    if digitsOk ecs then
      parseMantissa neg mant (if eneg then -(digitsVal ecs : ℤ) else (digitsVal ecs : ℤ))
    else none
  | _ => none

/-- Recognises the non-finite float literals `inf`, `infinity` and
`nan` (case-insensitive, optional sign and whitespace). -/
def isInfNaNStr (s : String) : Bool :=
  let cs := (pyStrip s).toList
  let cs := (parseSign cs).2
  let low : String := ⟨cs.map Char.toLower⟩
  low = "inf" || low = "infinity" || low = "nan"

/-- Whether `float(s)` succeeds (finite or non-finite). -/
def pyFloatParses (s : String) : Bool :=
  (pyFloatVal s).isSome || isInfNaNStr s

/-- `s.replace(c, "")` for each character in `targets`. -/
def removeChars (s : String) (targets : List Char) : String :=
  ⟨s.toList.filter (fun c => decide (c ∉ targets))⟩

/-- `[str(v).strip() for v in samples if v]`: drop falsy (empty) strings
and strip the rest. -/
def cleanList (samples : List String) : List String :=
  (samples.filter (fun v => decide (v ≠ ""))).map pyStrip

/-! ## `estimate_confidence`
(src/backend/agents/schema_deduction/tools/confidence_estimator.py)

`_numeric_consistency` accepts every string that `float(...)` parses, so
`inf`/`-inf`/`nan` enter the arithmetic; `PyFloat` models the finite
values exactly as rationals together with the three non-finite floats,
with IEEE propagation rules for the operations the source performs.  The
source computes `cv = std_dev / abs(mean)` with
`std_dev = variance ** 0.5`; the square root does not stay rational, so
the embedding compares `variance` against the squared thresholds, which
is equivalent for the quantities involved: with `mean` finite and
nonzero, `variance` is a sum of squares, so it is a nonnegative
rational, `+inf` or NaN, and `cv < t ↔ variance < t² · mean²` in the
finite case while `cv` is `+inf` or NaN (and every `cv < t` comparison
False) otherwise.  In the categorical branch the source divides by
`len(clean_samples)` without a guard and raises `ZeroDivisionError`
when every sample is falsy; the embedding returns `none` there. -/

/-- A Python float: an exact finite rational (IEEE rounding idealised
away), `+inf`, `-inf`, or NaN. -/
inductive PyFloat where
  | fin (q : ℚ)
  | pinf
  | ninf
  | nan
deriving DecidableEq, Repr

/-- Float addition (as used by `sum(values)`). -/
def PyFloat.add : PyFloat → PyFloat → PyFloat
  | PyFloat.nan, _ => PyFloat.nan
  | _, PyFloat.nan => PyFloat.nan
  | PyFloat.pinf, PyFloat.ninf => PyFloat.nan
  | PyFloat.ninf, PyFloat.pinf => PyFloat.nan
  | PyFloat.pinf, _ => PyFloat.pinf
  | PyFloat.ninf, _ => PyFloat.ninf
  | _, PyFloat.pinf => PyFloat.pinf
  | _, PyFloat.ninf => PyFloat.ninf
  | PyFloat.fin a, PyFloat.fin b => PyFloat.fin (a + b)

/-- Float subtraction (`x - mean`). -/
def PyFloat.sub : PyFloat → PyFloat → PyFloat
  | PyFloat.nan, _ => PyFloat.nan
  | _, PyFloat.nan => PyFloat.nan
  | PyFloat.pinf, PyFloat.pinf => PyFloat.nan
  | PyFloat.ninf, PyFloat.ninf => PyFloat.nan
  | PyFloat.pinf, _ => PyFloat.pinf
  | PyFloat.ninf, _ => PyFloat.ninf
  | _, PyFloat.pinf => PyFloat.ninf
  | _, PyFloat.ninf => PyFloat.pinf
  | PyFloat.fin a, PyFloat.fin b => PyFloat.fin (a - b)

/-- Float squaring (`(x - mean) ** 2`). -/
def PyFloat.sq : PyFloat → PyFloat
  | PyFloat.nan => PyFloat.nan
  | PyFloat.pinf => PyFloat.pinf
  | PyFloat.ninf => PyFloat.pinf
  | PyFloat.fin a => PyFloat.fin (a ^ 2)

/-- Division by a positive sample count (`/ len(values)`). -/
def PyFloat.divNat : PyFloat → ℕ → PyFloat
  | PyFloat.nan, _ => PyFloat.nan
  | PyFloat.pinf, _ => PyFloat.pinf
  | PyFloat.ninf, _ => PyFloat.ninf
  | PyFloat.fin a, n => PyFloat.fin (a / (n : ℚ))

/-- The Python comparison `mean == 0` (False for every non-finite
float). -/
def PyFloat.isZero : PyFloat → Bool
  | PyFloat.fin a => decide (a = 0)
  | _ => false

/-- The Python comparison `variance ** 0.5 / abs(mean) < t` for a
positive threshold `t`.  In the finite/finite case it equals
`variance < t² · mean²` (`variance` is a sum of squares, hence
nonnegative when finite).  In every other case arising in
`_numeric_consistency` the quotient is `+inf` or NaN — a non-finite
`mean` forces `variance` to be NaN, and a non-finite `variance` is
`+inf` or NaN — so the comparison is False. -/
def PyFloat.cvLt (variance mean : PyFloat) (t : ℚ) : Bool :=
  match variance, mean with
  | PyFloat.fin v, PyFloat.fin m => decide (v < t ^ 2 * m ^ 2)
  | _, _ => false

/-- The full result of `float(s)`: a finite rational or one of the
non-finite floats (`none` when `float(s)` raises `ValueError`). -/
def pyFloatE (s : String) : Option PyFloat :=
  match pyFloatVal s with
  | some q => some (PyFloat.fin q)
  | none =>
    let cs := (pyStrip s).toList
    let (neg, cs2) := parseSign cs
    let low : String := ⟨cs2.map Char.toLower⟩
    if low = "inf" || low = "infinity" then
      some (if neg then PyFloat.ninf else PyFloat.pinf)
    else if low = "nan" then some PyFloat.nan
    else none

/-- Embedding of `_numeric_consistency(samples)`: every string accepted
by `float(...)` (after `replace("$", "").replace(",", "")`) contributes
its value, non-finite floats included. -/
def numericConsistency (samples : List String) : ℚ :=
  let values := samples.filterMap (fun sample => pyFloatE (removeChars sample ['$', ',']))
  if values.length < 2 then 0.5
  else
    let mean := (values.foldl PyFloat.add (PyFloat.fin 0)).divNat values.length
    if mean.isZero then 0.7
    else
      let variance := ((values.map (fun x => (x.sub mean).sq)).foldl
        PyFloat.add (PyFloat.fin 0)).divNat values.length
      if PyFloat.cvLt variance mean (0.5 : ℚ) then 0.95
      else if PyFloat.cvLt variance mean (1.0 : ℚ) then 0.85
      else if PyFloat.cvLt variance mean (2.0 : ℚ) then 0.75
      else 0.65

/-- Embedding of `_datetime_consistency(samples)`. -/
def datetimeConsistency (samples : List String) : ℚ :=
  let lengths := samples.map (fun s => (s.length : ℚ))
  if lengths.isEmpty then 0.5
  else
    let avg_length := lengths.sum / (lengths.length : ℚ)
    let length_variance := (lengths.map (fun l => (l - avg_length) ^ 2)).sum
      / (lengths.length : ℚ)
    if length_variance < 2 then 0.95
    else if length_variance < 5 then 0.85
    else 0.70

/-- Embedding of `_calculate_consistency(samples, detected_type)`;
`none` models the `ZeroDivisionError` of the categorical branch on an
empty cleaned sample list. -/
def calculate_consistency (samples : List String) (detected_type : String) :
    Option ℚ :=
  if samples.isEmpty then some 0
  else
    let clean_samples := cleanList samples
    if detected_type = "numeric" then some (numericConsistency clean_samples)
    else if detected_type = "categorical" then
      (if clean_samples.length = 0 then none
       else some (1 - (clean_samples.dedup.length : ℚ) / (clean_samples.length : ℚ)))
    else if detected_type = "datetime" then some (datetimeConsistency clean_samples)
    else if detected_type = "boolean" then
      some (if clean_samples.dedup.length ≤ 2 then (1 : ℚ) else 0.5)
    else some 0.6

/-- Embedding of `estimate_confidence(detected_type, sample_values,
parse_success_rate)`. -/
def estimate_confidence (detected_type : String) (sample_values : List String)
    (parse_success_rate : ℚ) : Option ℚ :=
  if sample_values.isEmpty then some 0
  else
    let base_confidence := parse_success_rate
    let sample_size_factor := min ((sample_values.length : ℚ) / 10) 1
    (calculate_consistency sample_values detected_type).map
      (fun consistency_score =>
        let confidence := base_confidence * 0.5 + consistency_score * 0.3
          + sample_size_factor * 0.2
        max 0 (min 1 confidence))

/-! ## `detect_column_type`
(src/backend/agents/schema_deduction/tools/column_type_detector.py)

The datetime regexes consist only of fixed-length digit runs and literal
characters, embedded as token lists searched at every position
(`re.search` semantics); `\d` is modelled as an ASCII digit. -/

/-- A token of the datetime regexes: a run of `n` digits (`\d{n}`) or a
literal character. -/
inductive PatTok where
  | digits (n : ℕ)
  | lit (c : Char)
deriving DecidableEq, Repr

/-- Matches a token list against the front of a character list. -/
def tokMatch : List PatTok → List Char → Bool
  | [], _ => true
  | PatTok.digits n :: ps, cs =>
    decide ((cs.take n).length = n) && (cs.take n).all Char.isDigit
      && tokMatch ps (cs.drop n)
  | PatTok.lit _ :: _, [] => false
  | PatTok.lit c :: ps, d :: ds => decide (c = d) && tokMatch ps ds

/-- `re.search(pattern, s)`: the pattern matches at some position. -/
def regexSearch (pat : List PatTok) (s : String) : Bool :=
  (s.toList.tails).any (fun t => tokMatch pat t)

/-- The five datetime regexes of `_is_datetime_pattern`:
`YYYY-MM-DD`, `MM/DD/YYYY`, `YYYY/MM/DD`, `DD-MM-YYYY`, ISO 8601. -/
def datetimePatterns : List (List PatTok) :=
  [ [PatTok.digits 4, PatTok.lit '-', PatTok.digits 2, PatTok.lit '-', PatTok.digits 2]
  , [PatTok.digits 2, PatTok.lit '/', PatTok.digits 2, PatTok.lit '/', PatTok.digits 4]
  , [PatTok.digits 4, PatTok.lit '/', PatTok.digits 2, PatTok.lit '/', PatTok.digits 2]
  , [PatTok.digits 2, PatTok.lit '-', PatTok.digits 2, PatTok.lit '-', PatTok.digits 4]
  , [PatTok.digits 4, PatTok.lit '-', PatTok.digits 2, PatTok.lit '-', PatTok.digits 2,
     PatTok.lit 'T', PatTok.digits 2, PatTok.lit ':', PatTok.digits 2,
     PatTok.lit ':', PatTok.digits 2]
  ]

/-- Embedding of `_is_datetime_pattern(samples)`: at least 70% of the
samples contain one of the datetime patterns. -/
def is_datetime_pattern (samples : List String) : Bool :=
  let match_count :=
    (samples.filter (fun sample => datetimePatterns.any (fun p => regexSearch p sample))).length
  decide ((match_count : ℚ) / (samples.length : ℚ) ≥ 0.7)

/-- Embedding of `_is_numeric_pattern(samples)`: at least 80% of the
samples parse as floats after `re.sub(r"[$,€£¥]", "", sample)`. -/
def is_numeric_pattern (samples : List String) : Bool :=
  let numeric_count :=
    (samples.filter (fun sample =>
      pyFloatParses (removeChars sample ['$', ',', '€', '£', '¥']))).length
  decide ((numeric_count : ℚ) / (samples.length : ℚ) ≥ 0.8)

/-- The boolean value vocabulary of `_is_boolean_pattern`. -/
def boolean_values : List String :=
  ["true", "false", "yes", "no", "0", "1", "t", "f", "y", "n"]

/-- Embedding of `_is_boolean_pattern(samples)`: the lowercased sample
set is a subset of the boolean vocabulary of at most two elements. -/
def is_boolean_pattern (samples : List String) : Bool :=
  let unique_lower := (samples.map pyLower).dedup
  unique_lower.all (fun s => decide (s ∈ boolean_values))
    && decide (unique_lower.length ≤ 2)

/-- `pat.isPrefixOf s` on character lists (for `str.startswith`). -/
def listStartsWith : List Char → List Char → Bool
  | _, [] => true
  | [], _ :: _ => false
  | c :: cs, d :: ds => decide (c = d) && listStartsWith cs ds

/-- `sub in s`: substring containment. -/
def strContainsSub (s sub : String) : Bool :=
  (s.toList.tails).any (fun t => listStartsWith t sub.toList)

/-- `s.startswith(p)`. -/
def strStartsWith (s p : String) : Bool := listStartsWith s.toList p.toList

/-- `datetime_keywords` of `detect_column_type`. -/
def datetime_keywords : List String :=
  ["date", "time", "timestamp", "created", "updated", "modified"]

/-- `boolean_keywords` of `detect_column_type`. -/
def boolean_keywords : List String := ["is_", "has_", "flag", "enabled", "active"]

/-- `numeric_keywords` of `detect_column_type`. -/
def numeric_keywords : List String := ["id", "count", "amount", "price", "age", "score"]

/-- Embedding of `detect_column_type(column_name, sample_values)`.  Each
keyword stage of the source returns only when its value-pattern check
also succeeds and otherwise falls through, which the `&&` conditions
reproduce. -/
def detect_column_type (column_name : String) (sample_values : List String) : String :=
  let clean_samples := cleanList sample_values
  if clean_samples.isEmpty then "text"
  else
    let name_lower := pyLower column_name
    if datetime_keywords.any (fun kw => strContainsSub name_lower kw)
        && is_datetime_pattern clean_samples then "datetime"
    else if boolean_keywords.any (fun kw => strStartsWith name_lower kw)
        && is_boolean_pattern clean_samples then "boolean"
    else if numeric_keywords.any (fun kw => strContainsSub name_lower kw)
        && is_numeric_pattern clean_samples then "numeric"
    else if is_numeric_pattern clean_samples then "numeric"
    else if is_boolean_pattern clean_samples then "boolean"
    else if is_datetime_pattern clean_samples then "datetime"
    else if decide ((clean_samples.dedup.length : ℚ) / (clean_samples.length : ℚ) < 0.5)
      then "categorical"
    else "text"

/-! ## The initial Alembic schema migration
(src/alembic/versions/20251227_1430_001_initial_schema.py, `upgrade`)

The migration is embedded declaratively: the eight `op.create_table`
operations in creation order, each with its named CHECK constraints
transcribed into a small SQL condition language with the usual
three-valued semantics (a CHECK passes unless it evaluates to FALSE).
Columns, primary/foreign keys, server defaults and indexes are not
modelled; the claim concerns the table names and the check
constraints. -/

/-- An SQL value stored in a row: integer, float, string, boolean or
NULL. -/
inductive SqlVal where
  | vInt (n : ℤ)
  | vRat (q : ℚ)
  | vStr (s : String)
  | vBool (b : Bool)
  | vNull
deriving DecidableEq, Repr

/-- An atomic operand of a CHECK expression. -/
inductive SqlAtom where
  | col (name : String)
  | litInt (n : ℤ)
  | litStr (s : String)
deriving DecidableEq, Repr

/-- The CHECK conditions used by the migration. -/
inductive SqlCond where
  | inList (a : SqlAtom) (vs : List String)
  | le (a b : SqlAtom)
  | lt (a b : SqlAtom)
  | ge (a b : SqlAtom)
  | gt (a b : SqlAtom)
  | eqv (a b : SqlAtom)
  | isNotNull (a : SqlAtom)
  | and (p q : SqlCond)
  | or (p q : SqlCond)
deriving DecidableEq, Repr

/-- The value of an atom in a row (a row is a valuation of column
names). -/
def atomVal (row : String → SqlVal) : SqlAtom → SqlVal
  | SqlAtom.col n => row n
  | SqlAtom.litInt n => SqlVal.vInt n
  | SqlAtom.litStr s => SqlVal.vStr s

/-- The numeric reading of an SQL value (`none` for NULL and
non-numeric values). -/
def sqlNum : SqlVal → Option ℚ
  | SqlVal.vInt n => some (n : ℚ)
  | SqlVal.vRat q => some q
  | _ => none

/-- Three-valued evaluation of a CHECK condition (`none` = UNKNOWN, as
when a NULL is involved). -/
def condEval (row : String → SqlVal) : SqlCond → Option Bool
  | SqlCond.inList a vs =>
    match atomVal row a with
    | SqlVal.vStr s => some (decide (s ∈ vs))
    | _ => none
  | SqlCond.le a b =>
    match sqlNum (atomVal row a), sqlNum (atomVal row b) with
    | some x, some y => some (decide (x ≤ y))
    | _, _ => none
  | SqlCond.lt a b =>
    match sqlNum (atomVal row a), sqlNum (atomVal row b) with
    | some x, some y => some (decide (x < y))
    | _, _ => none
  | SqlCond.ge a b =>
    match sqlNum (atomVal row a), sqlNum (atomVal row b) with
    | some x, some y => some (decide (y ≤ x))
    | _, _ => none
  | SqlCond.gt a b =>
    match sqlNum (atomVal row a), sqlNum (atomVal row b) with
    | some x, some y => some (decide (y < x))
    | _, _ => none
  | SqlCond.eqv a b =>
    match atomVal row a, atomVal row b with
    | SqlVal.vNull, _ => none
    | _, SqlVal.vNull => none
    | x, y => some (decide (x = y))
  | SqlCond.isNotNull a => some (decide (atomVal row a ≠ SqlVal.vNull))
  | SqlCond.and p q =>
    match condEval row p, condEval row q with
    | some false, _ => some false
    | _, some false => some false
    | some true, some true => some true
    | _, _ => none
  | SqlCond.or p q =>
    match condEval row p, condEval row q with
    | some true, _ => some true
    | _, some true => some true
    | some false, some false => some false
    | _, _ => none

/-- A CHECK constraint accepts a row unless its condition evaluates to
FALSE. -/
def checkPasses (row : String → SqlVal) (c : SqlCond) : Bool :=
  decide (condEval row c ≠ some false)

/-- A named CHECK constraint of a table. -/
structure CheckConstraintDef where
  name : String
  cond : SqlCond
deriving DecidableEq, Repr

/-- A created table: its name and its CHECK constraints. -/
structure TableDef where
  name : String
  checks : List CheckConstraintDef
deriving DecidableEq, Repr

/-- All CHECK constraints of a table accept the row. -/
def tableChecksPass (t : TableDef) (row : String → SqlVal) : Bool :=
  t.checks.all (fun c => checkPasses row c.cond)

/-- `status IN ('uploading', 'uploaded', 'validating', 'validated', 'failed')`. -/
def validDatasetStatus : CheckConstraintDef :=
  { name := "valid_dataset_status"
    cond := SqlCond.inList (SqlAtom.col "status")
      ["uploading", "uploaded", "validating", "validated", "failed"] }

/-- `file_size_bytes > 0`. -/
def positiveFileSize : CheckConstraintDef :=
  { name := "positive_file_size"
    cond := SqlCond.gt (SqlAtom.col "file_size_bytes") (SqlAtom.litInt 0) }

/-- `status IN ('proposed', 'accepted', 'rejected', 'superseded')`. -/
def validSchemaStatus : CheckConstraintDef :=
  { name := "valid_schema_status"
    cond := SqlCond.inList (SqlAtom.col "status")
      ["proposed", "accepted", "rejected", "superseded"] }

/-- `confidence_score >= 0 AND confidence_score <= 1`. -/
def validConfidenceScore : CheckConstraintDef :=
  { name := "valid_confidence_score"
    cond := SqlCond.and
      (SqlCond.ge (SqlAtom.col "confidence_score") (SqlAtom.litInt 0))
      (SqlCond.le (SqlAtom.col "confidence_score") (SqlAtom.litInt 1)) }

/-- `storage_location IN ('postgres', 's3')`. -/
def validStorageLocation : CheckConstraintDef :=
  { name := "valid_storage_location"
    cond := SqlCond.inList (SqlAtom.col "storage_location") ["postgres", "s3"] }

/-- `(storage_location = 'postgres' AND full_report IS NOT NULL) OR
(storage_location = 's3' AND s3_bucket IS NOT NULL AND s3_key IS NOT NULL)`. -/
def validStorageData : CheckConstraintDef :=
  { name := "valid_storage_data"
    cond := SqlCond.or
      (SqlCond.and
        (SqlCond.eqv (SqlAtom.col "storage_location") (SqlAtom.litStr "postgres"))
        (SqlCond.isNotNull (SqlAtom.col "full_report")))
      (SqlCond.and
        (SqlCond.and
          (SqlCond.eqv (SqlAtom.col "storage_location") (SqlAtom.litStr "s3"))
          (SqlCond.isNotNull (SqlAtom.col "s3_bucket")))
        (SqlCond.isNotNull (SqlAtom.col "s3_key"))) }

/-- `status IN ('running', 'completed', 'failed')` for EDA reports. -/
def validEdaStatus : CheckConstraintDef :=
  { name := "valid_eda_status"
    cond := SqlCond.inList (SqlAtom.col "status") ["running", "completed", "failed"] }

/-- `status IN ('draft', 'validated', 'archived')`. -/
def validPipelineStatus : CheckConstraintDef :=
  { name := "valid_pipeline_status"
    cond := SqlCond.inList (SqlAtom.col "status") ["draft", "validated", "archived"] }

/-- `status IN ('queued', 'running', 'completed', 'failed', 'cancelled')`. -/
def validJobStatus : CheckConstraintDef :=
  { name := "valid_job_status"
    cond := SqlCond.inList (SqlAtom.col "status")
      ["queued", "running", "completed", "failed", "cancelled"] }

/-- `progress_percentage >= 0 AND progress_percentage <= 100`. -/
def validProgress : CheckConstraintDef :=
  { name := "valid_progress"
    cond := SqlCond.and
      (SqlCond.ge (SqlAtom.col "progress_percentage") (SqlAtom.litInt 0))
      (SqlCond.le (SqlAtom.col "progress_percentage") (SqlAtom.litInt 100)) }

/-- `priority >= 1 AND priority <= 10`. -/
def validPriority : CheckConstraintDef :=
  { name := "valid_priority"
    cond := SqlCond.and
      (SqlCond.ge (SqlAtom.col "priority") (SqlAtom.litInt 1))
      (SqlCond.le (SqlAtom.col "priority") (SqlAtom.litInt 10)) }

/-- `status IN ('running', 'completed', 'failed')` for experiment runs. -/
def validRunStatus : CheckConstraintDef :=
  { name := "valid_run_status"
    cond := SqlCond.inList (SqlAtom.col "status") ["running", "completed", "failed"] }

def usersTable : TableDef := { name := "users", checks := [] }

def datasetsTable : TableDef :=
  { name := "datasets", checks := [validDatasetStatus, positiveFileSize] }

def schemaDeductionsTable : TableDef :=
  { name := "schema_deductions", checks := [validSchemaStatus, validConfidenceScore] }

def edaReportsTable : TableDef :=
  { name := "eda_reports"
    checks := [validStorageLocation, validStorageData, validEdaStatus] }

def pipelinesTable : TableDef :=
  { name := "pipelines", checks := [validPipelineStatus] }

def trainingJobsTable : TableDef :=
  { name := "training_jobs", checks := [validJobStatus, validProgress, validPriority] }

def modelsTable : TableDef := { name := "models", checks := [] }

def experimentRunsTable : TableDef :=
  { name := "experiment_runs", checks := [validRunStatus] }

/-- The eight `op.create_table` operations of `upgrade()`, in creation
order. -/
def upgradeTables : List TableDef :=
  [usersTable, datasetsTable, schemaDeductionsTable, edaReportsTable,
   pipelinesTable, trainingJobsTable, modelsTable, experimentRunsTable]

/-- A sample datasets row used in the C9 witness. -/
def sampleDatasetsRow : String → SqlVal := fun c =>
  if c = "status" then SqlVal.vStr "uploaded"
  else if c = "file_size_bytes" then SqlVal.vInt 7
  else SqlVal.vNull

/-- A sample schema_deductions row used in the C9 witness. -/
def sampleSchemaRow : String → SqlVal := fun c =>
  if c = "confidence_score" then SqlVal.vRat (3/4) else SqlVal.vNull

/-- A sample training_jobs row used in the C9 witness. -/
def sampleJobsRow : String → SqlVal := fun c =>
  if c = "progress_percentage" then SqlVal.vInt 40 else SqlVal.vNull


/-! ## Theorems -/

/-- `setAdd` preserves duplicate-freeness. -/
theorem setAdd_nodup {s : List String} (h : s.Nodup) (x : String) :
    (setAdd s x).Nodup := by
  unfold setAdd
  split_ifs with hx
  · exact h
  · rw [List.nodup_append]
    refine ⟨h, List.nodup_singleton x, ?_⟩
    intro a ha hax
    simp only [List.mem_singleton] at hax
    subst hax
    exact hx ha

/-- `setUnion` preserves duplicate-freeness. -/
theorem setUnion_nodup {s : List String} (h : s.Nodup) (xs : List String) :
    (setUnion s xs).Nodup := by
  induction xs generalizing s with
  | nil => exact h
  | cons y ys ih => exact ih (setAdd_nodup h y)

/-- The accumulated column set stays duplicate-free along the validator's
first loop. -/
theorem validateStepFold_nodup (X_sample : DataFrame) (steps : List PlanStep)
    (acc : List String × List ValidationErrorMsg × Bool) (h : acc.1.Nodup) :
    (steps.foldl (validateStepFold X_sample) acc).1.Nodup := by
  induction steps generalizing acc with
  | nil => exact h
  | cons s ss ih =>
    refine ih _ ?_
    simp only [validateStepFold]
    split_ifs <;> exact setUnion_nodup h _

/-- The validator's first loop only appends missing-columns errors. -/
theorem validateStepFold_errors (X_sample : DataFrame) (steps : List PlanStep)
    (acc : List String × List ValidationErrorMsg × Bool)
    (h : acc.2.1.all isMissingColumnsError = true) :
    ((steps.foldl (validateStepFold X_sample) acc).2.1).all
      isMissingColumnsError = true := by
  induction steps generalizing acc with
  | nil => exact h
  | cons s ss ih =>
    refine ih _ ?_
    simp only [validateStepFold]
    split_ifs
    · exact h
    · simp only [List.all_append, h, Bool.true_and, List.all_cons, List.all_nil,
        Bool.and_true]
      rfl

/-- Over a duplicate-free list, every occurrence count is at most one, so
the filter selecting counts above one is empty. -/
theorem nodup_filter_count_gt_one (l : List String) (h : l.Nodup) :
    l.filter (fun c => decide (1 < l.count c)) = [] := by
  rw [List.filter_eq_nil_iff]
  intro a ha
  simp only [decide_eq_true_eq, not_lt]
  exact List.nodup_iff_count_le_one.mp h a

/-- C3: for every pipeline configuration and sample DataFrame, every error
produced by `validate_preprocessing_pipeline` is a missing-columns error:
because column occurrences are counted over the deduplicated set
`all_columns`, every count is exactly one, the duplicate-detection branch
is unreachable, and duplicate column assignments are never flagged. -/
theorem validate_preprocessing_pipeline_no_duplicate_errors
    (pipeline_config : PipelinePlan) (X_sample : DataFrame) :
    ((validate_preprocessing_pipeline pipeline_config X_sample).errors).all
      isMissingColumnsError = true := by
  simp only [validate_preprocessing_pipeline]
  have hnodup : (pipeline_config.steps.foldl (validateStepFold X_sample)
      ([], [], true)).1.Nodup :=
    validateStepFold_nodup X_sample pipeline_config.steps _ List.nodup_nil
  rw [nodup_filter_count_gt_one _ hnodup]
  simp only [List.isEmpty_nil, if_true]
  exact validateStepFold_errors X_sample pipeline_config.steps _ rfl

/-- On a list sorted by `countGE`, the last element (when it exists) has
the minimum count. -/
theorem sorted_countGE_getLast?_le (l : List (String × ℕ)) :
    l.Sorted countGE → ∀ x : String × ℕ, l.getLast? = some x →
      ∀ p ∈ l, x.2 ≤ p.2 := by
  induction l with
  | nil =>
    intro _ x hx
    cases hx
  | cons a t ih =>
    intro hs x hx
    cases t with
    | nil =>
      intro p hp
      simp only [List.getLast?_singleton, Option.some.injEq] at hx
      simp only [List.mem_singleton] at hp
      subst hx
      subst hp
      exact le_refl _
    | cons b u =>
      intro p hp
      rw [List.getLast?_cons_cons] at hx
      have hbu : (b :: u) ≠ [] := by simp
      rcases List.mem_cons.mp hp with rfl | hp'
      · have hxmem : x ∈ b :: u := by
          rw [List.getLast?_eq_getLast_of_ne_nil hbu] at hx
          obtain rfl : x = (b :: u).getLast hbu := (Option.some.injEq _ _ ▸ hx).symm
          exact List.getLast_mem hbu
        exact (List.sorted_cons.mp hs).1 x hxmem
      · exact ih (List.sorted_cons.mp hs).2 x hx p hp'

/-- The head of `sortedCounts` is a member of `value_counts` with maximal
count. -/
theorem sortedCounts_head_max (l : List (String × ℕ)) (hne : l ≠ []) :
    ((sortedCounts l).headD ("", 0)) ∈ l ∧
      ∀ p ∈ l, p.2 ≤ ((sortedCounts l).headD ("", 0)).2 := by
  have hperm : List.Perm (sortedCounts l) l := List.perm_insertionSort countGE l
  have hsorted : (sortedCounts l).Sorted countGE := List.sorted_insertionSort countGE l
  have hne' : sortedCounts l ≠ [] := by
    intro h
    have h2 := hperm
    rw [h] at h2
    exact hne h2.symm.eq_nil
  obtain ⟨a, t, hat⟩ : ∃ a t, sortedCounts l = a :: t := by
    cases hl : sortedCounts l with
    | nil => exact absurd hl hne'
    | cons a t => exact ⟨a, t, rfl⟩
  rw [hat]
  simp only [List.headD_cons]
  constructor
  · exact hperm.subset (hat ▸ List.mem_cons_self a t)
  · intro p hp
    have hp' : p ∈ a :: t := hat ▸ hperm.mem_iff.mpr hp
    rcases List.mem_cons.mp hp' with rfl | hp''
    · exact le_refl _
    · exact (List.sorted_cons.mp (hat ▸ hsorted)).1 p hp''

/-- The last element of `sortedCounts` is a member of `value_counts` with
minimal count. -/
theorem sortedCounts_getLast_min (l : List (String × ℕ)) (hne : l ≠ []) :
    (((sortedCounts l).getLast?).getD ("", 0)) ∈ l ∧
      ∀ p ∈ l, (((sortedCounts l).getLast?).getD ("", 0)).2 ≤ p.2 := by
  have hperm : List.Perm (sortedCounts l) l := List.perm_insertionSort countGE l
  have hsorted : (sortedCounts l).Sorted countGE := List.sorted_insertionSort countGE l
  have hne' : sortedCounts l ≠ [] := by
    intro h
    have h2 := hperm
    rw [h] at h2
    exact hne h2.symm.eq_nil
  rw [List.getLast?_eq_getLast_of_ne_nil hne']
  simp only [Option.getD_some]
  constructor
  · exact hperm.subset (List.getLast_mem hne')
  · intro p hp
    exact sorted_countGE_getLast?_le _ hsorted _
      (List.getLast?_eq_getLast_of_ne_nil hne') p (hperm.mem_iff.mpr hp)

/-- C1: for every categorical column with at least two distinct classes
(and no class of count zero), writing `M` for the majority-class count and
`m` for the minority-class count, `analyze_class_imbalance` returns an
insight of severity `"high"` when `M / m > 10`, `"medium"` when
`3 ≤ M / m ≤ 10`, and `"low"` when `1.5 ≤ M / m < 3`. -/
theorem analyze_class_imbalance_severity (column_name : String)
    (value_counts : List (String × ℕ)) (M m : ℕ)
    (hlen : 2 ≤ value_counts.length)
    (hMmem : M ∈ value_counts.map Prod.snd)
    (hmmem : m ∈ value_counts.map Prod.snd)
    (hMmax : ∀ c ∈ value_counts.map Prod.snd, c ≤ M)
    (hmmin : ∀ c ∈ value_counts.map Prod.snd, m ≤ c)
    (hm : 0 < m) :
    ((10 : ℚ) < (M : ℚ) / (m : ℚ) →
      (analyze_class_imbalance column_name value_counts).map ImbalanceInsight.severity
        = some "high")
    ∧ ((3 : ℚ) ≤ (M : ℚ) / (m : ℚ) → (M : ℚ) / (m : ℚ) ≤ 10 →
      (analyze_class_imbalance column_name value_counts).map ImbalanceInsight.severity
        = some "medium")
    ∧ ((3/2 : ℚ) ≤ (M : ℚ) / (m : ℚ) → (M : ℚ) / (m : ℚ) < 3 →
      (analyze_class_imbalance column_name value_counts).map ImbalanceInsight.severity
        = some "low") := by
  have hne : value_counts ≠ [] := by
    intro h
    rw [h] at hlen
    simp at hlen
  obtain ⟨hhmem, hhmax⟩ := sortedCounts_head_max value_counts hne
  obtain ⟨hlmem, hlmin⟩ := sortedCounts_getLast_min value_counts hne
  have hnotlen : ¬ value_counts.length < 2 := not_lt.mpr hlen
  have htotpos : 0 < (value_counts.map Prod.snd).sum :=
    lt_of_lt_of_le hm (List.single_le_sum (fun x _ => Nat.zero_le x) _ hmmem)
  have htot0 : ¬ (value_counts.map Prod.snd).sum = 0 := Nat.pos_iff_ne_zero.mp htotpos
  have haM : ((sortedCounts value_counts).headD ("", 0)).2 = M :=
    le_antisymm
      (hMmax _ (List.mem_map_of_mem Prod.snd hhmem))
      (by
        obtain ⟨p, hpmem, hpM⟩ := List.mem_map.mp hMmem
        calc M = p.2 := hpM.symm
          _ ≤ _ := hhmax p hpmem)
  have hxm : (((sortedCounts value_counts).getLast?).getD ("", 0)).2 = m :=
    le_antisymm
      (by
        obtain ⟨p, hpmem, hpm⟩ := List.mem_map.mp hmmem
        calc (((sortedCounts value_counts).getLast?).getD ("", 0)).2
            ≤ p.2 := hlmin p hpmem
          _ = m := hpm)
      (hmmin _ (List.mem_map_of_mem Prod.snd hlmem))
  simp only [analyze_class_imbalance, if_neg hnotlen, if_neg htot0, haM, hxm,
    if_pos hm]
  have h15 : (1.5 : ℚ) = 3/2 := by norm_num
  refine ⟨?_, ?_, ?_⟩
  · intro h10
    rw [if_pos (by exact_mod_cast h10)]
    rfl
  · intro h3 h10
    rw [if_neg (by rw [WithTop.coe_lt_coe]; exact not_lt.mpr h10),
      if_pos (by exact_mod_cast h3)]
    rfl
  · intro h32 h3
    rw [if_neg (by rw [WithTop.coe_lt_coe]; intro hc; linarith),
      if_neg (by rw [WithTop.coe_le_coe]; exact not_le.mpr h3),
      if_pos (by rw [h15, WithTop.coe_le_coe]; exact h32)]
    rfl

/-- Witness for C1 at concrete inputs. -/
theorem analyze_class_imbalance_severity_witness :
    (analyze_class_imbalance "label" [("a", 11), ("b", 1)]).map ImbalanceInsight.severity
      = some "high" := by
  have h := analyze_class_imbalance_severity "label" [("a", 11), ("b", 1)] 11 1
    (by norm_num) (by simp) (by simp)
    (by intro c hc; simp at hc; omega)
    (by intro c hc; simp at hc; omega)
    (by norm_num)
  exact h.1 (by norm_num)

/-- C6: `recommend_scaling_strategy` returns `"robust"` whenever
`has_outliers` is true (regardless of skewness); otherwise it returns
`"log_transform"` exactly when the absolute skewness exceeds 2.0 and
`"standard"` in all remaining cases, and the documented strategy `"minmax"`
is never returned for any input. -/
theorem recommend_scaling_strategy_spec (column_stats : List (String × ℚ))
    (has_outliers : Bool) :
    recommend_scaling_strategy column_stats has_outliers =
      (if has_outliers then "robust"
       else if |dictGetD column_stats "skewness" 0| > 2 then "log_transform"
       else "standard")
    ∧ recommend_scaling_strategy column_stats has_outliers ≠ "minmax" := by
  have h2 : (2.0 : ℚ) = 2 := by norm_num
  constructor
  · unfold recommend_scaling_strategy
    cases has_outliers
    · simp only [Bool.false_eq_true, if_false]
      rcases lt_or_le |dictGetD column_stats "skewness" 0| (0.5 : ℚ) with h | h
      · rw [if_pos h, if_neg (by rw [not_lt]; calc
          |dictGetD column_stats "skewness" 0| ≤ 0.5 := le_of_lt h
          _ ≤ 2 := by norm_num)]
      · rw [if_neg (not_lt.mpr h), h2]
    · simp
  · simp only [recommend_scaling_strategy]
    split_ifs <;> simp

/-- C7: `recommend_encoding_strategy` returns `"onehot"` when
`unique_values < 10`; for `10 ≤ unique_values ≤ 50` it returns `"target"`
exactly when `|target_correlation| > 0.3` and otherwise `"onehot"`; for
`unique_values > 100` it returns `"hash"`; for `50 < unique_values ≤ 100`
it returns `"target"`; the documented strategy `"ordinal"` is never
returned for any input. -/
theorem recommend_encoding_strategy_spec (unique_values : ℤ)
    (target_correlation : ℚ) :
    (unique_values < 10 →
      recommend_encoding_strategy unique_values target_correlation = "onehot")
    ∧ (10 ≤ unique_values → unique_values ≤ 50 →
      recommend_encoding_strategy unique_values target_correlation =
        (if (0.3 : ℚ) < |target_correlation| then "target" else "onehot"))
    ∧ (100 < unique_values →
      recommend_encoding_strategy unique_values target_correlation = "hash")
    ∧ (50 < unique_values → unique_values ≤ 100 →
      recommend_encoding_strategy unique_values target_correlation = "target")
    ∧ recommend_encoding_strategy unique_values target_correlation ≠ "ordinal" := by
  unfold recommend_encoding_strategy
  refine ⟨?_, ?_, ?_, ?_, ?_⟩
  · intro h
    rw [if_pos h]
  · intro h10 h50
    rw [if_neg (by omega), if_pos ⟨h10, h50⟩]
  · intro h
    rw [if_neg (by omega), if_neg (by omega), if_pos h]
  · intro h50 h100
    rw [if_neg (by omega), if_neg (by omega), if_neg (by omega)]
  · split_ifs <;> simp

/-- C8: `recommend_imputation_strategy` returns `"mode"` for every
categorical column regardless of missingness or outliers; for numeric
columns it returns `"median"` when `has_outliers` and `"mean"` otherwise
for `missing_pct ≤ 20`, `"knn"` for `20 < missing_pct < 40`, and
`"iterative"` for `missing_pct ≥ 40`; the output is always one of
`"mean"`, `"median"`, `"mode"`, `"knn"`, `"iterative"`. -/
theorem recommend_imputation_strategy_spec (column_name : String)
    (missing_pct : ℚ) (data_type : DataType) (has_outliers : Bool) :
    (recommend_imputation_strategy column_name missing_pct DataType.categorical has_outliers
        = "mode")
    ∧ (missing_pct ≤ 20 →
      recommend_imputation_strategy column_name missing_pct DataType.numeric has_outliers
        = (if has_outliers then "median" else "mean"))
    ∧ (20 < missing_pct → missing_pct < 40 →
      recommend_imputation_strategy column_name missing_pct DataType.numeric has_outliers
        = "knn")
    ∧ (40 ≤ missing_pct →
      recommend_imputation_strategy column_name missing_pct DataType.numeric has_outliers
        = "iterative")
    ∧ recommend_imputation_strategy column_name missing_pct data_type has_outliers
        ∈ (["mean", "median", "mode", "knn", "iterative"] : List String) := by
  refine ⟨rfl, ?_, ?_, ?_, ?_⟩
  · intro h20
    unfold recommend_imputation_strategy
    rcases lt_or_le missing_pct 5 with h5 | h5
    · rw [if_neg (by simp), if_pos h5]
    · rw [if_neg (by simp), if_neg (by simpa [not_lt] using h5),
        if_pos ⟨h5, h20⟩]
  · intro h20 h40
    unfold recommend_imputation_strategy
    rw [if_neg (by simp), if_neg (by rw [not_lt]; linarith),
      if_neg (by rintro ⟨-, hb⟩; linarith), if_pos h40]
  · intro h40
    unfold recommend_imputation_strategy
    rw [if_neg (by simp), if_neg (by rw [not_lt]; linarith),
      if_neg (by rintro ⟨-, hb⟩; linarith),
      if_neg (by rw [not_lt]; linarith)]
  · unfold recommend_imputation_strategy
    split_ifs <;> simp

/-- C2: the pipeline validation endpoint is stubbed out: for every
pipeline configuration submitted, no validation checks are performed (the
result does not depend on the request at all) and a result with
`valid=True` and empty error and warning lists is returned. -/
theorem validate_pipeline_stub (request request' : PipelineConfigRequest) :
    (validate_pipeline request).data.valid = true
    ∧ (validate_pipeline request).data.errors = []
    ∧ (validate_pipeline request).data.warnings = []
    ∧ validate_pipeline request = validate_pipeline request' :=
  ⟨rfl, rfl, rfl, rfl⟩

/-- Witness for C6 at concrete inputs. -/
theorem recommend_scaling_strategy_spec_witness :
    recommend_scaling_strategy [("skewness", (5/2 : ℚ))] false = "log_transform" := by
  have h := (recommend_scaling_strategy_spec [("skewness", (5/2 : ℚ))] false).1
  have hd : dictGetD [("skewness", (5/2 : ℚ))] "skewness" 0 = 5/2 := by
    norm_num [dictGetD]
  rw [h, if_neg (by simp),
    if_pos (by rw [hd, abs_of_nonneg (by norm_num : (0:ℚ) ≤ 5/2)]; norm_num)]

/-- Witness for C7 at concrete inputs. -/
theorem recommend_encoding_strategy_spec_witness :
    recommend_encoding_strategy 5 (1/5) = "onehot"
    ∧ recommend_encoding_strategy 25 (9/20) = "target"
    ∧ recommend_encoding_strategy 25 (1/10) = "onehot"
    ∧ recommend_encoding_strategy 150 (7/20) = "hash"
    ∧ recommend_encoding_strategy 80 0 = "target" := by
  refine ⟨?_, ?_, ?_, ?_, ?_⟩
  · exact (recommend_encoding_strategy_spec 5 (1/5)).1 (by norm_num)
  · have h := (recommend_encoding_strategy_spec 25 (9/20)).2.1 (by norm_num)
      (by norm_num)
    rw [h, if_pos (by rw [abs_of_nonneg (by norm_num : (0:ℚ) ≤ 9/20)]; norm_num)]
  · have h := (recommend_encoding_strategy_spec 25 (1/10)).2.1 (by norm_num)
      (by norm_num)
    rw [h, if_neg (by rw [abs_of_nonneg (by norm_num : (0:ℚ) ≤ 1/10)]; norm_num)]
  · exact (recommend_encoding_strategy_spec 150 (7/20)).2.2.1 (by norm_num)
  · exact (recommend_encoding_strategy_spec 80 0).2.2.2.1 (by norm_num) (by norm_num)

/-- Witness for C8 at concrete inputs. -/
theorem recommend_imputation_strategy_spec_witness :
    recommend_imputation_strategy "age" (5/2) DataType.numeric false = "mean"
    ∧ recommend_imputation_strategy "income" 35 DataType.numeric false = "knn"
    ∧ recommend_imputation_strategy "income" 45 DataType.numeric false = "iterative"
    ∧ recommend_imputation_strategy "category" 8 DataType.categorical false = "mode" := by
  refine ⟨?_, ?_, ?_, ?_⟩
  · have h := (recommend_imputation_strategy_spec "age" (5/2) DataType.numeric false).2.1
      (by norm_num)
    simpa using h
  · exact (recommend_imputation_strategy_spec "income" 35 DataType.numeric false).2.2.1
      (by norm_num) (by norm_num)
  · exact (recommend_imputation_strategy_spec "income" 45 DataType.numeric false).2.2.2.1
      (by norm_num)
  · exact (recommend_imputation_strategy_spec "category" 8 DataType.categorical false).1

/-- C4: the rule-based recommendation functions and the EDA insight
generator are pure deterministic functions: each is embedded as a total
Lean function of exactly its declared arguments (no world, state or
randomness parameter occurs in any of the definitions), so two calls
with equal arguments return equal results and the result depends on
nothing but the arguments. -/
theorem rule_functions_deterministic
    (n₁ n₂ : String) (p₁ p₂ : ℚ) (d₁ d₂ : DataType) (o₁ o₂ : Bool)
    (s₁ s₂ : List (String × ℚ)) (u₁ u₂ : ℤ) (t₁ t₂ : ℚ)
    (c₁ c₂ : String) (v₁ v₂ : List (String × ℕ))
    (hn : n₁ = n₂) (hp : p₁ = p₂) (hd : d₁ = d₂) (ho : o₁ = o₂)
    (hs : s₁ = s₂) (hu : u₁ = u₂) (ht : t₁ = t₂) (hc : c₁ = c₂) (hv : v₁ = v₂) :
    recommend_imputation_strategy n₁ p₁ d₁ o₁ = recommend_imputation_strategy n₂ p₂ d₂ o₂
    ∧ recommend_scaling_strategy s₁ o₁ = recommend_scaling_strategy s₂ o₂
    ∧ recommend_encoding_strategy u₁ t₁ = recommend_encoding_strategy u₂ t₂
    ∧ analyze_class_imbalance c₁ v₁ = analyze_class_imbalance c₂ v₂ := by
  subst hn
  subst hp
  subst hd
  subst ho
  subst hs
  subst hu
  subst ht
  subst hc
  subst hv
  exact ⟨rfl, rfl, rfl, rfl⟩

/-- Witness for C4 at concrete inputs. -/
theorem rule_functions_deterministic_witness :
    recommend_imputation_strategy "age" 10 DataType.numeric true
      = recommend_imputation_strategy "age" 10 DataType.numeric true
    ∧ recommend_scaling_strategy [("skewness", 1)] true
      = recommend_scaling_strategy [("skewness", 1)] true
    ∧ recommend_encoding_strategy 25 (1/10) = recommend_encoding_strategy 25 (1/10)
    ∧ analyze_class_imbalance "y" [("a", 3), ("b", 2)]
      = analyze_class_imbalance "y" [("a", 3), ("b", 2)] :=
  rule_functions_deterministic "age" "age" 10 10 DataType.numeric DataType.numeric
    true true [("skewness", 1)] [("skewness", 1)] 25 25 (1/10) (1/10) "y" "y"
    [("a", 3), ("b", 2)] [("a", 3), ("b", 2)]
    rfl rfl rfl rfl rfl rfl rfl rfl rfl

/-- C10 counterexample: with detected type `"categorical"` and a
nonempty sample list all of whose values are empty strings, the source
raises `ZeroDivisionError` (embedded as `none`) instead of returning a
clamped confidence value. -/
theorem estimate_confidence_zero_division :
    estimate_confidence "categorical" ["", ""] 1 = none := rfl

/-- C10 (amended): whenever the categorical branch is not hit with an
all-falsy nonempty sample list (which raises `ZeroDivisionError` in the
source), `estimate_confidence` returns a value clamped to `[0, 1]`; it
returns exactly `0` on an empty sample list, and otherwise the weighted
sum `0.5 · parse_success_rate + 0.3 · consistency + 0.2 · min(len/10, 1)`
clamped to `[0, 1]`. -/
theorem estimate_confidence_spec (detected_type : String)
    (sample_values : List String) (parse_success_rate : ℚ)
    (h : detected_type = "categorical" → sample_values ≠ [] →
      cleanList sample_values ≠ []) :
    ∃ q : ℚ,
      estimate_confidence detected_type sample_values parse_success_rate = some q
      ∧ 0 ≤ q ∧ q ≤ 1
      ∧ (sample_values = [] → q = 0)
      ∧ (sample_values ≠ [] →
        ∃ c : ℚ, calculate_consistency sample_values detected_type = some c
          ∧ q = max 0 (min 1 (parse_success_rate * 0.5 + c * 0.3
              + min ((sample_values.length : ℚ) / 10) 1 * 0.2))) := by
  by_cases hemp : sample_values = []
  · refine ⟨0, ?_, le_refl 0, by norm_num, fun _ => rfl, fun hne => absurd hemp hne⟩
    simp [estimate_confidence, hemp]
  · have hne : ¬ sample_values.isEmpty = true := by
      intro hh
      exact hemp (List.isEmpty_iff.mp hh)
    have hcons : ∃ c, calculate_consistency sample_values detected_type = some c := by
      simp only [calculate_consistency, if_neg hne]
      by_cases h1 : detected_type = "numeric"
      · rw [if_pos h1]
        exact ⟨_, rfl⟩
      rw [if_neg h1]
      by_cases h2 : detected_type = "categorical"
      · rw [if_pos h2]
        have hcl : cleanList sample_values ≠ [] := h h2 hemp
        rw [if_neg (by simpa [List.length_eq_zero] using hcl)]
        exact ⟨_, rfl⟩
      rw [if_neg h2]
      by_cases h3 : detected_type = "datetime"
      · rw [if_pos h3]
        exact ⟨_, rfl⟩
      rw [if_neg h3]
      by_cases h4 : detected_type = "boolean"
      · rw [if_pos h4]
        exact ⟨_, rfl⟩
      rw [if_neg h4]
      exact ⟨_, rfl⟩
    obtain ⟨c, hc⟩ := hcons
    refine ⟨max 0 (min 1 (parse_success_rate * 0.5 + c * 0.3
        + min ((sample_values.length : ℚ) / 10) 1 * 0.2)),
      ?_, le_max_left _ _, ?_, fun he => absurd he hemp, fun _ => ⟨c, hc, rfl⟩⟩
    · simp only [estimate_confidence, if_neg hne, hc]
      rfl
    · exact max_le (by norm_num) (min_le_left _ _)

/-- A sample list in which nothing parses as a float is not numeric. -/
theorem is_numeric_pattern_of_no_match (samples : List String)
    (h : samples.filter (fun sample =>
      pyFloatParses (removeChars sample ['$', ',', '€', '£', '¥'])) = []) :
    is_numeric_pattern samples = false := by
  simp only [is_numeric_pattern, h, List.length_nil, Nat.cast_zero, zero_div]
  rw [decide_eq_false_iff_not]
  norm_num

/-- A sample list in which nothing matches a datetime regex is not a
datetime column. -/
theorem is_datetime_pattern_of_no_match (samples : List String)
    (h : samples.filter (fun sample =>
      datetimePatterns.any (fun p => regexSearch p sample)) = []) :
    is_datetime_pattern samples = false := by
  simp only [is_datetime_pattern, h, List.length_nil, Nat.cast_zero, zero_div]
  rw [decide_eq_false_iff_not]
  norm_num

/-- C5: `detect_column_type` always returns one of the five type strings
`"numeric"`, `"categorical"`, `"datetime"`, `"text"`, `"boolean"`; when
every sample value is empty (so the cleaned sample list is empty) it
returns `"text"`; and when the cleaned list is nonempty, matches none of
the numeric/boolean/datetime value patterns, and has unique ratio below
0.5, it returns `"categorical"`. -/
theorem detect_column_type_spec (column_name : String) (sample_values : List String) :
    (detect_column_type column_name sample_values
      ∈ (["numeric", "categorical", "datetime", "text", "boolean"] : List String))
    ∧ ((∀ v ∈ sample_values, v = "") →
      detect_column_type column_name sample_values = "text")
    ∧ (cleanList sample_values ≠ [] →
      is_numeric_pattern (cleanList sample_values) = false →
      is_boolean_pattern (cleanList sample_values) = false →
      is_datetime_pattern (cleanList sample_values) = false →
      ((cleanList sample_values).dedup.length : ℚ)
          / ((cleanList sample_values).length : ℚ) < 1/2 →
      detect_column_type column_name sample_values = "categorical") := by
  refine ⟨?_, ?_, ?_⟩
  · simp only [detect_column_type]
    split_ifs <;> simp
  · intro h
    have hcl : cleanList sample_values = [] := by
      unfold cleanList
      have hf : sample_values.filter (fun v => decide (v ≠ "")) = [] := by
        rw [List.filter_eq_nil_iff]
        intro a ha
        simp [h a ha]
      rw [hf]
      rfl
    simp [detect_column_type, hcl]
  · intro hne hnum hbool hdt huniq
    simp only [detect_column_type]
    rw [if_neg (by simpa [List.isEmpty_iff] using hne)]
    rw [if_neg (by simp [hdt]), if_neg (by simp [hbool]), if_neg (by simp [hnum]),
      if_neg (by simp [hnum]), if_neg (by simp [hbool]), if_neg (by simp [hdt]),
      if_pos (decide_eq_true
        (by rw [(by norm_num : (0.5 : ℚ) = 1/2)]; exact huniq))]

/-- Witness for C5 at concrete inputs. -/
theorem detect_column_type_spec_witness :
    detect_column_type "user" ["", ""] = "text"
    ∧ detect_column_type "product" ["x", "x", "x"] = "categorical" := by
  constructor
  · exact (detect_column_type_spec "user" ["", ""]).2.1 (by simp)
  · have hcl : cleanList ["x", "x", "x"] = ["x", "x", "x"] := by decide
    refine (detect_column_type_spec "product" ["x", "x", "x"]).2.2
      (by rw [hcl]; simp)
      (is_numeric_pattern_of_no_match _ (by rw [hcl]; decide))
      (by rw [hcl]; decide)
      (is_datetime_pattern_of_no_match _ (by rw [hcl]; decide))
      ?_
    rw [hcl, (by decide : (["x", "x", "x"] : List String).dedup = ["x"])]
    norm_num

/-- A three-valued AND is not FALSE only when neither conjunct is FALSE. -/
theorem condEval_and_ne_false {row : String → SqlVal} {p q : SqlCond}
    (h : condEval row (SqlCond.and p q) ≠ some false) :
    condEval row p ≠ some false ∧ condEval row q ≠ some false := by
  constructor
  · intro hc
    exact h (by simp [condEval, hc])
  · intro hc
    apply h
    rcases hcp : condEval row p with _ | b
    · simp [condEval, hcp, hc]
    · cases b
      · simp [condEval, hcp, hc]
      · simp [condEval, hcp, hc]

/-- A decided proposition whose evaluation is not FALSE holds. -/
theorem of_some_decide_ne_false {P : Prop} [Decidable P]
    (h : (some (decide P) : Option Bool) ≠ some false) : P := by
  by_contra hc
  exact h (by simp [hc])

/-- A three-valued AND of two TRUE conjuncts is TRUE. -/
theorem condEval_and_true {row : String → SqlVal} {p q : SqlCond}
    (hp : condEval row p = some true) (hq : condEval row q = some true) :
    condEval row (SqlCond.and p q) = some true := by
  simp [condEval, hp, hq]

/-- Evaluating a condition that reduces to a decided true proposition. -/
theorem condEval_decide_true {row : String → SqlVal} {c : SqlCond} {P : Prop}
    [Decidable P] (h : condEval row c = some (decide P)) (hP : P) :
    condEval row c = some true := by
  rw [h, decide_eq_true hP]

/-- C9: the initial schema migration creates exactly the 8 tables
`users`, `datasets`, `schema_deductions`, `eda_reports`, `pipelines`,
`training_jobs`, `models`, `experiment_runs` (in that order), and its
check constraints enforce the stated invariants: on any row accepted by
the table's checks, a non-NULL dataset `status` lies in the enumerated
set, a non-NULL `datasets.file_size_bytes` is positive, a non-NULL
`schema_deductions.confidence_score` lies in `[0, 1]`, and a non-NULL
`training_jobs.progress_percentage` lies in `[0, 100]`. -/
theorem initial_schema_spec :
    (upgradeTables.map TableDef.name
      = ["users", "datasets", "schema_deductions", "eda_reports", "pipelines",
         "training_jobs", "models", "experiment_runs"])
    ∧ (∀ row : String → SqlVal, tableChecksPass datasetsTable row = true →
        (∀ s : String, row "status" = SqlVal.vStr s →
          s ∈ (["uploading", "uploaded", "validating", "validated", "failed"] : List String))
        ∧ (∀ n : ℤ, row "file_size_bytes" = SqlVal.vInt n → 0 < n))
    ∧ (∀ row : String → SqlVal, tableChecksPass schemaDeductionsTable row = true →
        ∀ q : ℚ, row "confidence_score" = SqlVal.vRat q → 0 ≤ q ∧ q ≤ 1)
    ∧ (∀ row : String → SqlVal, tableChecksPass trainingJobsTable row = true →
        ∀ p : ℤ, row "progress_percentage" = SqlVal.vInt p → 0 ≤ p ∧ p ≤ 100) := by
  refine ⟨rfl, ?_, ?_, ?_⟩
  · intro row h
    simp only [tableChecksPass, datasetsTable, validDatasetStatus, positiveFileSize,
      List.all_cons, List.all_nil, Bool.and_true, Bool.and_eq_true, checkPasses,
      decide_eq_true_eq] at h
    obtain ⟨h1, h2⟩ := h
    constructor
    · intro s hs
      rw [show condEval row (SqlCond.inList (SqlAtom.col "status")
          ["uploading", "uploaded", "validating", "validated", "failed"])
          = some (decide (s ∈ ["uploading", "uploaded", "validating",
            "validated", "failed"])) from by simp [condEval, atomVal, hs]] at h1
      exact of_some_decide_ne_false h1
    · intro n hn
      rw [show condEval row (SqlCond.gt (SqlAtom.col "file_size_bytes")
          (SqlAtom.litInt 0))
          = some (decide ((((0 : ℤ) : ℚ)) < ((n : ℤ) : ℚ))) from by
            simp [condEval, atomVal, sqlNum, hn]] at h2
      have := of_some_decide_ne_false h2
      exact_mod_cast this
  · intro row h q hq
    simp only [tableChecksPass, schemaDeductionsTable, validSchemaStatus,
      validConfidenceScore, List.all_cons, List.all_nil, Bool.and_true,
      Bool.and_eq_true, checkPasses, decide_eq_true_eq] at h
    obtain ⟨-, h2⟩ := h
    obtain ⟨hge, hle⟩ := condEval_and_ne_false h2
    rw [show condEval row (SqlCond.ge (SqlAtom.col "confidence_score")
        (SqlAtom.litInt 0)) = some (decide ((((0 : ℤ) : ℚ)) ≤ q)) from by
          simp [condEval, atomVal, sqlNum, hq]] at hge
    rw [show condEval row (SqlCond.le (SqlAtom.col "confidence_score")
        (SqlAtom.litInt 1)) = some (decide (q ≤ (((1 : ℤ) : ℚ)))) from by
          simp [condEval, atomVal, sqlNum, hq]] at hle
    have hge' := of_some_decide_ne_false hge
    have hle' := of_some_decide_ne_false hle
    constructor
    · exact_mod_cast hge'
    · exact_mod_cast hle'
  · intro row h p hp
    simp only [tableChecksPass, trainingJobsTable, validJobStatus, validProgress,
      validPriority, List.all_cons, List.all_nil, Bool.and_true,
      Bool.and_eq_true, checkPasses, decide_eq_true_eq] at h
    obtain ⟨-, h2, -⟩ := h
    obtain ⟨hge, hle⟩ := condEval_and_ne_false h2
    rw [show condEval row (SqlCond.ge (SqlAtom.col "progress_percentage")
        (SqlAtom.litInt 0)) = some (decide ((((0 : ℤ) : ℚ)) ≤ ((p : ℤ) : ℚ))) from by
          simp [condEval, atomVal, sqlNum, hp]] at hge
    rw [show condEval row (SqlCond.le (SqlAtom.col "progress_percentage")
        (SqlAtom.litInt 100)) = some (decide (((p : ℤ) : ℚ) ≤ (((100 : ℤ) : ℚ)))) from by
          simp [condEval, atomVal, sqlNum, hp]] at hle
    have hge' := of_some_decide_ne_false hge
    have hle' := of_some_decide_ne_false hle
    constructor
    · exact_mod_cast hge'
    · exact_mod_cast hle'

/-- Witness for C9 at concrete rows. -/
theorem initial_schema_spec_witness :
    ("uploaded" ∈ (["uploading", "uploaded", "validating", "validated", "failed"] : List String))
    ∧ (0 : ℤ) < 7
    ∧ ((0 : ℚ) ≤ 3/4 ∧ (3/4 : ℚ) ≤ 1)
    ∧ ((0 : ℤ) ≤ 40 ∧ (40 : ℤ) ≤ 100) := by
  have e1 : condEval sampleDatasetsRow validDatasetStatus.cond = some true := by
    decide
  have e2 : condEval sampleDatasetsRow positiveFileSize.cond = some true :=
    condEval_decide_true
      (rfl : condEval sampleDatasetsRow positiveFileSize.cond
        = some (decide ((((0 : ℤ) : ℚ)) < (((7 : ℤ) : ℚ)))))
      (by norm_num)
  have e3 : condEval sampleSchemaRow validSchemaStatus.cond ≠ some false := by
    decide
  have e4 : condEval sampleSchemaRow validConfidenceScore.cond = some true :=
    condEval_and_true
      (condEval_decide_true
        (rfl : condEval sampleSchemaRow (SqlCond.ge (SqlAtom.col "confidence_score")
            (SqlAtom.litInt 0)) = some (decide ((((0 : ℤ) : ℚ)) ≤ (3/4 : ℚ))))
        (by norm_num))
      (condEval_decide_true
        (rfl : condEval sampleSchemaRow (SqlCond.le (SqlAtom.col "confidence_score")
            (SqlAtom.litInt 1)) = some (decide ((3/4 : ℚ) ≤ (((1 : ℤ) : ℚ)))))
        (by norm_num))
  have e5 : condEval sampleJobsRow validJobStatus.cond ≠ some false := by
    decide
  have e6 : condEval sampleJobsRow validProgress.cond = some true :=
    condEval_and_true
      (condEval_decide_true
        (rfl : condEval sampleJobsRow (SqlCond.ge (SqlAtom.col "progress_percentage")
            (SqlAtom.litInt 0)) = some (decide ((((0 : ℤ) : ℚ)) ≤ (((40 : ℤ) : ℚ)))))
        (by norm_num))
      (condEval_decide_true
        (rfl : condEval sampleJobsRow (SqlCond.le (SqlAtom.col "progress_percentage")
            (SqlAtom.litInt 100)) = some (decide ((((40 : ℤ) : ℚ)) ≤ (((100 : ℤ) : ℚ)))))
        (by norm_num))
  have e7 : condEval sampleJobsRow validPriority.cond ≠ some false := by
    decide
  have hdpass : tableChecksPass datasetsTable sampleDatasetsRow = true := by
    simp [tableChecksPass, datasetsTable, checkPasses, e1, e2]
  have hspass : tableChecksPass schemaDeductionsTable sampleSchemaRow = true := by
    simp [tableChecksPass, schemaDeductionsTable, checkPasses, e3, e4]
  have hjpass : tableChecksPass trainingJobsTable sampleJobsRow = true := by
    simp [tableChecksPass, trainingJobsTable, checkPasses, e5, e6, e7]
  have hd := initial_schema_spec.2.1 sampleDatasetsRow hdpass
  have hs := initial_schema_spec.2.2.1 sampleSchemaRow hspass
  have hj := initial_schema_spec.2.2.2 sampleJobsRow hjpass
  exact ⟨hd.1 "uploaded" rfl, hd.2 7 rfl, hs (3/4) rfl, hj 40 rfl⟩

/-- Witness for C10 at concrete inputs. -/
theorem estimate_confidence_spec_witness :
    ∃ q : ℚ,
      estimate_confidence "text" ["hello", "world"] (1/2) = some q
      ∧ 0 ≤ q ∧ q ≤ 1
      ∧ (["hello", "world"] = ([] : List String) → q = 0)
      ∧ (["hello", "world"] ≠ ([] : List String) →
        ∃ c : ℚ, calculate_consistency ["hello", "world"] "text" = some c
          ∧ q = max 0 (min 1 ((1/2 : ℚ) * 0.5 + c * 0.3
              + min (((["hello", "world"] : List String).length : ℚ) / 10) 1 * 0.2))) :=
  estimate_confidence_spec "text" ["hello", "world"] (1/2)
    (fun hc => absurd hc (by decide))

end PipeWeave
